import Mathlib

/-!
Shallow embedding of the finance app's aggregation and CRUD-handler logic:
budget status, monthly summary, category summary, CSV export, transaction
handlers, goal progress, and the SQL delete-cascade semantics, together with
theorems settling the specification's claims about them.

Amounts are modelled as rationals (the app stores NUMERIC / JS numbers and the
claims are exact-arithmetic statements); JS `Math.round` is `⌊x + 1/2⌋`.
-/

namespace Finance

/-- Transaction/category type tag: `'income' | 'expense'`. -/
inductive TxType where
  | income
  | expense
deriving DecidableEq, Repr

/-- A calendar date as stored on a transaction, viewed through
`getFullYear()` / `getMonth() + 1` / `getDate()`. -/
structure DateYMD where
  year : ℤ
  month : ℤ
  day : ℤ
deriving DecidableEq, Repr

/-- Row of the `transactions` table as used by the pages. -/
structure Transaction where
  id : String
  amount : ℚ
  description : String
  date : DateYMD
  type : TxType
  category_id : String
deriving DecidableEq, Repr

/-- Row of the `categories` table as used by the pages
(`budget NUMERIC` is nullable). -/
structure Category where
  id : String
  name : String
  color : String
  type : TxType
  budget : Option ℚ
deriving DecidableEq, Repr

/-- JS `Math.round`: round half toward positive infinity. -/
def jsRound (q : ℚ) : ℤ := ⌊q + 1 / 2⌋

/-- The `list.reduce((sum, t) => sum + t.amount, 0)`. -/
def sumAmounts (l : List Transaction) : ℚ := (l.map (·.amount)).sum

/-- Budget tier computed by `getBudgetStatus`. -/
inductive BudgetTier where
  | normal
  | warning
  | danger
deriving DecidableEq, Repr

/-- Return value of `getBudgetStatus` when the category has a budget. -/
structure BudgetStatus where
  spent : ℚ
  remaining : ℚ
  percentage : ℤ
  status : BudgetTier
deriving DecidableEq, Repr

/-- The `getBudgetStatus` from the budget page: returns `null` when
`category.budget` is falsy (absent or zero); otherwise sums the amounts of the
fetched transactions referencing the category, and grades
`Math.round(spent / budget * 100)`. -/
def getBudgetStatus (cat : Category) (transactions : List Transaction) :
    Option BudgetStatus :=
  match cat.budget with
  | none => none
  | some b =>
    if b = 0 then none
    else
      let spent := sumAmounts (transactions.filter (fun t => t.category_id == cat.id))
      let percentage := jsRound (spent / b * 100)
      some
        { spent := spent
          remaining := b - spent
          percentage := percentage
          status :=
            if 90 ≤ percentage then .danger
            else if 75 ≤ percentage then .warning
            else .normal }

/-- Chart entry produced by the category summaries
(`{ name, value, color }`). -/
structure CatEntry where
  name : String
  value : ℚ
  color : String
deriving DecidableEq, Repr

/-- Descending order on entry values; the JS comparator
`(a, b) => b.value - a.value` places `a` before `b` iff `b.value ≤ a.value`. -/
def valueGE (a b : CatEntry) : Prop := b.value ≤ a.value

instance : DecidableRel valueGE := fun a b =>
  inferInstanceAs (Decidable (b.value ≤ a.value))

instance : IsTotal CatEntry valueGE := ⟨fun a b => le_total b.value a.value⟩

instance : IsTrans CatEntry valueGE := ⟨fun _ _ _ h1 h2 => le_trans h2 h1⟩

/-- Shared shape of `expenseByCategory` (dashboard) and `categoryData`
(reports): per-category totals over the given transactions, entries with
non-positive total dropped, sorted descending by total. -/
def categorySummary (cats : List Category) (txs : List Transaction) :
    List CatEntry :=
  List.insertionSort valueGE
    (((cats.map fun c =>
        { name := c.name
          value := sumAmounts (txs.filter (fun t => t.category_id == c.id))
          color := c.color : CatEntry })).filter
      (fun e => 0 < e.value))

/-- The `expenseByCategory` from the dashboard: the summary restricted to expense
categories (the transactions themselves are not filtered by type). -/
def expenseByCategory (cats : List Category) (txs : List Transaction) :
    List CatEntry :=
  categorySummary (cats.filter (fun c => c.type == TxType.expense)) txs

/-- Sum of the `value` fields of a summary. -/
def sumValues (l : List CatEntry) : ℚ := (l.map (·.value)).sum

/-- Short English month name for a 0-based month index, as produced by
`toLocaleString('en-US', { month: 'short' })`. -/
def monthShortName : ℕ → String
  | 0 => "Jan"
  | 1 => "Feb"
  | 2 => "Mar"
  | 3 => "Apr"
  | 4 => "May"
  | 5 => "Jun"
  | 6 => "Jul"
  | 7 => "Aug"
  | 8 => "Sep"
  | 9 => "Oct"
  | 10 => "Nov"
  | 11 => "Dec"
  | _ => ""

/-- An element of `getLastNMonths`'s result:
`{ month: 1..12, year, name: short month name }`. -/
structure MonthInfo where
  month : ℤ
  year : ℤ
  name : String
deriving DecidableEq, Repr

/-- The month record for `new Date(y, mIdx, 1)` where `t = y * 12 + mIdx` is
the total month count; JS normalizes an out-of-range month index by flooring,
which Euclidean division by 12 reproduces. -/
def monthInfoOf (t : ℤ) : MonthInfo :=
  { month := t.emod 12 + 1
    year := t.ediv 12
    name := monthShortName (t.emod 12).toNat }

/-- The `getLastNMonths` with today's `getFullYear()` and 0-based `getMonth()`
made explicit: pushes the current month going backwards, then reverses. -/
def getLastNMonths (todayYear todayMonth0 : ℤ) (n : ℕ) : List MonthInfo :=
  ((List.range n).map
    (fun i : ℕ => monthInfoOf (todayYear * 12 + todayMonth0 - (i : ℤ)))).reverse

/-- One bucket of the dashboard's monthly chart data. -/
structure MonthlyBucket where
  name : String
  income : ℚ
  expenses : ℚ
  balance : ℚ
deriving DecidableEq, Repr

/-- Body of the dashboard's `monthlyStats` map: restrict to the bucket's
calendar month, then total income and expenses. -/
def monthlyBucket (mo : MonthInfo) (transactions : List Transaction) :
    MonthlyBucket :=
  let monthTransactions := transactions.filter
    (fun t => t.date.month == mo.month && t.date.year == mo.year)
  let monthlyIncome :=
    sumAmounts (monthTransactions.filter (fun t => t.type == TxType.income))
  let monthlyExpenses :=
    sumAmounts (monthTransactions.filter (fun t => t.type == TxType.expense))
  { name := mo.name
    income := monthlyIncome
    expenses := monthlyExpenses
    balance := monthlyIncome - monthlyExpenses }

/-- The `monthlyStats` from the dashboard: one bucket per month of
`getLastNMonths`. -/
def monthlyStats (months : List MonthInfo) (txs : List Transaction) :
    List MonthlyBucket :=
  months.map (fun mo => monthlyBucket mo txs)

/-- The dashboard's monthly chart data as a function of today's year,
0-based month, the number of trailing months, and the transactions. -/
def monthlySummary (todayYear todayMonth0 : ℤ) (n : ℕ)
    (txs : List Transaction) : List MonthlyBucket :=
  monthlyStats (getLastNMonths todayYear todayMonth0 n) txs

/-- The bucket the spec prescribes for total month count `t`: totals range
over the transactions of the matching type whose date lies in that calendar
month. -/
def specMonthBucket (t : ℤ) (txs : List Transaction) : MonthlyBucket :=
  { name := monthShortName (t.emod 12).toNat
    income := sumAmounts (txs.filter (fun tx =>
      tx.type == TxType.income && tx.date.month == t.emod 12 + 1 &&
        tx.date.year == t.ediv 12))
    expenses := sumAmounts (txs.filter (fun tx =>
      tx.type == TxType.expense && tx.date.month == t.emod 12 + 1 &&
        tx.date.year == t.ediv 12))
    balance :=
      sumAmounts (txs.filter (fun tx =>
        tx.type == TxType.income && tx.date.month == t.emod 12 + 1 &&
          tx.date.year == t.ediv 12)) -
      sumAmounts (txs.filter (fun tx =>
        tx.type == TxType.expense && tx.date.month == t.emod 12 + 1 &&
          tx.date.year == t.ediv 12)) }

/-- Whether a handler ended in the success toast or the error toast of its
`catch` block. -/
inductive ToastKind where
  | success
  | failure
deriving DecidableEq, Repr

/-- The form values a transaction create/update submits. -/
structure TxForm where
  amount : ℚ
  description : String
  date : DateYMD
  category_id : String
  type : TxType
deriving DecidableEq, Repr

/-- Create branch of `handleAddTransaction`: on a backend error the thrown
error is caught and only a toast is raised; on success the returned row is
prepended to the local list. -/
def handleCreateTransaction (st : List Transaction)
    (resp : Except String Transaction) : List Transaction × ToastKind :=
  match resp with
  | .error _ => (st, .failure)
  | .ok row => (row :: st, .success)

/-- Update branch of `handleAddTransaction`: on success the matching local
row is overwritten with the submitted form values. -/
def handleUpdateTransaction (st : List Transaction) (tid : String)
    (values : TxForm) (resp : Except String Unit) :
    List Transaction × ToastKind :=
  match resp with
  | .error _ => (st, .failure)
  | .ok _ =>
    (st.map fun transaction =>
      if transaction.id == tid then
        { transaction with
            amount := values.amount
            description := values.description
            date := values.date
            category_id := values.category_id
            type := values.type }
      else transaction,
      .success)

/-- The `handleDeleteTransaction`: on success the row is removed from the local
list. -/
def handleDeleteTransaction (st : List Transaction) (tid : String)
    (resp : Except String Unit) : List Transaction × ToastKind :=
  match resp with
  | .error _ => (st, .failure)
  | .ok _ => (st.filter (fun transaction => ¬(transaction.id == tid)), .success)

/-- Outcome of a CSV export: either an informational toast with no download,
or a download of the built file content. -/
inductive ExportResult where
  | notified (title : String)
  | downloaded (content : String)
deriving DecidableEq, Repr

/-- The `transaction.amount.toFixed(2)` for a non-negative value: the integer
closest to `100 * q` (ties toward the larger), printed with two decimals. -/
def toFixed2Pos (q : ℚ) : String :=
  let n := jsRound (q * 100)
  let ip := n / 100
  let fp := n % 100
  toString ip ++ "." ++ (if fp < 10 then "0" ++ toString fp else toString fp)

/-- The `toFixed(2)`: ECMAScript formats the magnitude and prefixes the sign. -/
def toFixed2 (q : ℚ) : String :=
  if q < 0 then "-" ++ toFixed2Pos (-q) else toFixed2Pos q

/-- Lowercase type tag as stored and as printed by the reports export. -/
def typeString : TxType → String
  | .income => "income"
  | .expense => "expense"

/-- The `type.charAt(0).toUpperCase() + type.slice(1)` from the transactions
export. -/
def typeCap : TxType → String
  | .income => "Income"
  | .expense => "Expense"

/-- Left-pad a numeral to two digits (date-fns `MM` / `dd`). -/
def pad2 (n : ℤ) : String :=
  if n < 10 then "0" ++ toString n else toString n

/-- Left-pad a numeral to four digits (date-fns `yyyy`). -/
def pad4 (n : ℤ) : String :=
  if n < 10 then "000" ++ toString n
  else if n < 100 then "00" ++ toString n
  else if n < 1000 then "0" ++ toString n
  else toString n

/-- The `format(new Date(t.date), "yyyy-MM-dd")`. -/
def fmtDateISO (d : DateYMD) : String :=
  pad4 d.year ++ "-" ++ pad2 d.month ++ "-" ++ pad2 d.day

/-- The `categories.find(c => c.id === t.category_id)?.name || "Uncategorized"`. -/
def categoryName (cats : List Category) (cid : String) : String :=
  match cats.find? (fun c => c.id == cid) with
  | some c => c.name
  | none => "Uncategorized"

/-- The shared CSV header cells. -/
def csvHeaders : List String := ["Date", "Type", "Category", "Description", "Amount"]

/-- Row cells built by the reports export for one transaction. -/
def reportRow (cats : List Category) (t : Transaction) : List String :=
  [fmtDateISO t.date, typeString t.type, categoryName cats t.category_id,
    t.description, toFixed2 t.amount]

/-- The `csvContent` of the reports export: header line then one joined row per
transaction. -/
def reportCsv (cats : List Category) (txs : List Transaction) : String :=
  String.intercalate "\n"
    (String.intercalate "," csvHeaders ::
      txs.map (fun t => String.intercalate "," (reportRow cats t)))

/-- The `exportReport`: empty (filtered) list → toast and early return, else the
file content is built and downloaded. -/
def exportReport (cats : List Category) (filtered : List Transaction) :
    ExportResult :=
  if filtered.length = 0 then .notified "No data to export"
  else .downloaded (reportCsv cats filtered)

/-- Row cells built by the transactions export;
`new Date(date).toLocaleDateString()` is environment-dependent, so the
locale's date renderer is passed in as `fmt`. -/
def txRow (fmt : DateYMD → String) (cats : List Category) (t : Transaction) :
    List String :=
  [fmt t.date, typeCap t.type, categoryName cats t.category_id,
    t.description, toFixed2 t.amount]

/-- The `csvContent` of the transactions export. -/
def txCsv (fmt : DateYMD → String) (cats : List Category)
    (txs : List Transaction) : String :=
  String.intercalate "\n"
    (String.intercalate "," csvHeaders ::
      txs.map (fun t => String.intercalate "," (txRow fmt cats t)))

/-- The `exportTransactions`: empty list → toast and early return, else
download. -/
def exportTransactions (fmt : DateYMD → String) (cats : List Category)
    (txs : List Transaction) : ExportResult :=
  if txs.length = 0 then .notified "No transactions to export"
  else .downloaded (txCsv fmt cats txs)

/-- The reports page's `filteredTransactions`: a set category filter (`none`
models "all") and type filter each reject mismatching rows. -/
def filteredTransactions (categoryFilter : Option String)
    (typeFilter : Option TxType) (txs : List Transaction) :
    List Transaction :=
  txs.filter fun transaction =>
    (match categoryFilter with
      | none => true
      | some cid => transaction.category_id == cid) &&
    (match typeFilter with
      | none => true
      | some ty => transaction.type == ty)

/-- The rows the database holds for one user. -/
structure Db where
  categories : List Category
  transactions : List Transaction
deriving DecidableEq, Repr

/-- The `DELETE FROM categories WHERE id = cid` under the declared foreign key
`transactions.category_id UUID NOT NULL REFERENCES categories(id) ON DELETE
CASCADE` (migration in the repository): the category row is removed and the
cascade deletes every transaction referencing it. -/
def deleteCategoryCascade (db : Db) (cid : String) : Db :=
  { categories := db.categories.filter (fun c => ¬(c.id == cid))
    transactions := db.transactions.filter (fun t => ¬(t.category_id == cid)) }

/-- A savings goal row as the goal card and dashboard read it. -/
structure SavingsGoal where
  id : String
  name : String
  target_amount : ℚ
  current_amount : ℚ
deriving DecidableEq, Repr

/-- The `GoalCard`: `Math.min(100, Math.round(current / target * 100))`. -/
def goalCardPercentage (g : SavingsGoal) : ℤ :=
  min 100 (jsRound (g.current_amount / g.target_amount * 100))

/-- The identical expression inlined in the dashboard's savings-goal list. -/
def dashboardGoalPercentage (g : SavingsGoal) : ℤ :=
  min 100 (jsRound (g.current_amount / g.target_amount * 100))

/-! ### Concrete fixtures used by witnesses and counterexamples -/

/-- An expense category with id `a` and a budget of 200. -/
def exCatA : Category :=
  { id := "a", name := "Food", color := "#14b8a6", type := .expense,
    budget := some 200 }

/-- An expense of 160 referencing category `a`. -/
def exTxA : Transaction :=
  { id := "t1", amount := 160, description := "groceries",
    date := { year := 2024, month := 2, day := 5 }, type := .expense,
    category_id := "a" }

/-- An income transaction, used to exercise the type filter. -/
def exTxIncome : Transaction :=
  { id := "t2", amount := 75, description := "salary",
    date := { year := 2024, month := 2, day := 1 }, type := .income,
    category_id := "s" }

/-- A database holding the one category and the one transaction referencing
it. -/
def exDb : Db := { categories := [exCatA], transactions := [exTxA] }

/-- A savings goal whose current amount exceeds its target. -/
def exGoal : SavingsGoal :=
  { id := "g1", name := "Trip", target_amount := 100, current_amount := 150 }

/-! ### Budget status (claims C1 and C10) -/

/-- Conclusion of claim C1 at a category whose budget is `b`: the returned
status has the spent/remaining/percentage values and the tier
characterization the spec states. -/
def C1Concl (cat : Category) (txs : List Transaction) (b : ℚ) : Prop :=
  ∃ s : BudgetStatus, getBudgetStatus cat txs = some s ∧
    s.spent = sumAmounts (txs.filter (fun t => t.category_id == cat.id)) ∧
    s.remaining = b - s.spent ∧
    s.percentage = jsRound (s.spent / b * 100) ∧
    (s.status = BudgetTier.danger ↔ 90 ≤ s.percentage) ∧
    (s.status = BudgetTier.warning ↔ 75 ≤ s.percentage ∧ s.percentage < 90) ∧
    (s.status = BudgetTier.normal ↔ s.percentage < 75)

/-- Claim C1: for a category with a (nonzero) budget `b`, the budget status
has spent = the sum of the amounts of the transactions referencing the
category, remaining = `b - spent`, percentage = `round(spent / b * 100)`,
and status danger iff percentage ≥ 90, warning iff 75 ≤ percentage < 90,
else normal. -/
theorem getBudgetStatus_fields (cat : Category) (txs : List Transaction)
    (b : ℚ) (hb : cat.budget = some b) (hb0 : b ≠ 0) : C1Concl cat txs b := by
  unfold C1Concl
  simp only [getBudgetStatus, hb, if_neg hb0]
  refine ⟨_, rfl, rfl, rfl, rfl, ?_, ?_, ?_⟩ <;>
    · simp only
      split_ifs <;> simp_all <;> omega

/-- Witness for claim C1: a 200 budget with 160 spent yields the warning
tier at 80 percent. -/
theorem getBudgetStatus_fields_witness :
    exCatA.budget = some 200 ∧ (200 : ℚ) ≠ 0 ∧ C1Concl exCatA [exTxA] 200 :=
  ⟨rfl, by norm_num, getBudgetStatus_fields exCatA [exTxA] 200 rfl (by norm_num)⟩

/-- Claim C10: `getBudgetStatus` returns `none` exactly when the category's
budget is absent or zero, and returns a status exactly when the budget is a
nonzero value — so the division's divisor is never zero. -/
theorem getBudgetStatus_none_iff (cat : Category) (txs : List Transaction) :
    (getBudgetStatus cat txs = none ↔
      cat.budget = none ∨ cat.budget = some 0) ∧
    ((getBudgetStatus cat txs).isSome = true ↔
      ∃ b : ℚ, cat.budget = some b ∧ b ≠ 0) := by
  cases hb : cat.budget with
  | none => simp [getBudgetStatus, hb]
  | some b =>
    by_cases h0 : b = 0 <;> simp [getBudgetStatus, hb, h0]

/-! ### Savings-goal progress (claim C9) -/

/-- Claim C9: for a goal with nonzero target, the percentage rendered by the
goal card equals `min(100, round(current / target * 100))`, the dashboard
renders the same value, and neither ever exceeds 100. -/
theorem goalPercentage_spec (g : SavingsGoal) (_h : g.target_amount ≠ 0) :
    goalCardPercentage g =
      min 100 (jsRound (g.current_amount / g.target_amount * 100)) ∧
    dashboardGoalPercentage g = goalCardPercentage g ∧
    goalCardPercentage g ≤ 100 ∧ dashboardGoalPercentage g ≤ 100 :=
  ⟨rfl, rfl, min_le_left _ _, min_le_left _ _⟩

/-- Witness for claim C9: a goal at 150 of 100 caps at 100 percent. -/
theorem goalPercentage_spec_witness :
    exGoal.target_amount ≠ 0 ∧
      (goalCardPercentage exGoal =
          min 100 (jsRound (exGoal.current_amount / exGoal.target_amount * 100)) ∧
        dashboardGoalPercentage exGoal = goalCardPercentage exGoal ∧
        goalCardPercentage exGoal ≤ 100 ∧ dashboardGoalPercentage exGoal ≤ 100) ∧
      goalCardPercentage exGoal = 100 :=
  ⟨by decide, goalPercentage_spec exGoal (by decide),
    by norm_num [goalCardPercentage, jsRound, exGoal]⟩

/-! ### Handler error behaviour (claim C5) -/

/-- Claim C5: each transaction create/update/delete handler leaves the local
collection exactly as it was when the backend call errors (surfacing only the
failure toast), and modifies it only on a successful response — prepending
the returned row, overwriting the matching row, or removing the row. -/
theorem handlers_state_discipline (st : List Transaction) (e : String)
    (tid : String) (v : TxForm) (row : Transaction) :
    (handleCreateTransaction st (.error e)).1 = st ∧
    (handleCreateTransaction st (.error e)).2 = .failure ∧
    (handleUpdateTransaction st tid v (.error e)).1 = st ∧
    (handleUpdateTransaction st tid v (.error e)).2 = .failure ∧
    (handleDeleteTransaction st tid (.error e)).1 = st ∧
    (handleDeleteTransaction st tid (.error e)).2 = .failure ∧
    handleCreateTransaction st (.ok row) = (row :: st, .success) ∧
    (handleUpdateTransaction st tid v (.ok ())).1 =
      st.map (fun t =>
        if t.id == tid then
          { t with
              amount := v.amount
              description := v.description
              date := v.date
              category_id := v.category_id
              type := v.type }
        else t) ∧
    (handleDeleteTransaction st tid (.ok ())).1 =
      st.filter (fun t => ¬(t.id == tid)) :=
  ⟨rfl, rfl, rfl, rfl, rfl, rfl, rfl, rfl, rfl⟩

/-! ### Empty export (claim C6) -/

/-- Claim C6: exporting an empty transaction list — and on the reports page a
fully filtered-out list — produces the notification outcome rather than a
download. -/
theorem export_empty_notifies (fmt : DateYMD → String)
    (cats : List Category) (categoryFilter : Option String)
    (typeFilter : Option TxType) (txs : List Transaction)
    (hf : filteredTransactions categoryFilter typeFilter txs = []) :
    exportTransactions fmt cats [] = .notified "No transactions to export" ∧
    exportReport cats (filteredTransactions categoryFilter typeFilter txs) =
      .notified "No data to export" := by
  rw [hf]
  exact ⟨rfl, rfl⟩

/-- Witness for claim C6: an income-only list with the expense filter applied
is fully filtered out and both exports notify. -/
theorem export_empty_notifies_witness :
    filteredTransactions none (some .expense) [exTxIncome] = [] ∧
      (exportTransactions fmtDateISO [] [] =
          .notified "No transactions to export" ∧
        exportReport []
            (filteredTransactions none (some .expense) [exTxIncome]) =
          .notified "No data to export") :=
  ⟨by decide,
    export_empty_notifies fmtDateISO [] none (some .expense) [exTxIncome]
      (by decide)⟩

/-! ### Category deletion (claim C4) -/

/-- Counterexample to claim C4 as stated: deleting category `a`, whose
declared foreign key is `ON DELETE CASCADE`, does not leave the referencing
transaction in place — the transaction list becomes empty. -/
theorem deleteCategory_not_dangling :
    (deleteCategoryCascade exDb "a").transactions ≠ exDb.transactions ∧
    (deleteCategoryCascade exDb "a").transactions = [] := by
  decide

/-- Claim C4 as amended: deleting a category removes the category row and,
per the `ON DELETE CASCADE` foreign key, deletes every transaction
referencing it, leaving exactly the transactions that reference other
categories — no dangling reference can remain. -/
theorem deleteCategory_cascade_spec (db : Db) (cid : String) :
    (deleteCategoryCascade db cid).transactions =
      db.transactions.filter (fun t => ¬(t.category_id == cid)) ∧
    ((deleteCategoryCascade db cid).transactions.all
      (fun t => ¬(t.category_id == cid))) = true ∧
    ((deleteCategoryCascade db cid).categories.all
      (fun c => ¬(c.id == cid))) = true := by
  refine ⟨rfl, ?_, ?_⟩ <;>
    simp [deleteCategoryCascade, List.all_eq_true, List.mem_filter]

/-! ### Category summary shape (claim C7) -/

/-- Claim C7: the category summary never contains an entry whose total is
zero, and its entries are sorted descending by total. -/
theorem categorySummary_pos_sorted (cats : List Category)
    (txs : List Transaction) :
    ((categorySummary cats txs).all (fun e => ¬(e.value == 0))) = true ∧
    List.Sorted valueGE (categorySummary cats txs) := by
  refine ⟨?_, List.sorted_insertionSort valueGE _⟩
  simp only [List.all_eq_true, categorySummary, List.mem_insertionSort,
    List.mem_filter, decide_eq_true_eq]
  intro e he
  simpa using ne_of_gt (of_decide_eq_true he.2)

/-! ### Category summary totals (claim C3) -/

/-- A transaction of type expense whose category reference matches no listed
category. -/
def exTxDangling : Transaction :=
  { id := "t3", amount := 100, description := "stray",
    date := { year := 2024, month := 1, day := 3 }, type := .expense,
    category_id := "zz" }

/-- Counterexample to claim C3 as stated: with one expense category `a` and
one expense transaction referencing the unknown category `zz`, the summary
totals sum to 0 while the expense transactions sum to 100. -/
theorem categorySummary_sum_counterexample :
    ¬(sumValues (expenseByCategory [exCatA] [exTxDangling]) =
      sumAmounts
        (List.filter (fun t => t.type == TxType.expense) [exTxDangling])) := by
  norm_num [sumValues, sumAmounts, expenseByCategory, categorySummary,
    exCatA, exTxDangling, List.filter]

/-- Sum of the values surviving the positivity filter, when all values are
non-negative: only exact zeros are dropped, so the sum is unchanged. -/
theorem sumValues_filter_pos (l : List CatEntry)
    (h : ∀ e ∈ l, 0 ≤ e.value) :
    sumValues (l.filter (fun e => 0 < e.value)) = sumValues l := by
  induction l with
  | nil => rfl
  | cons e l ih =>
    have hl := fun x hx => h x (List.mem_cons_of_mem _ hx)
    by_cases he : 0 < e.value
    · simp [List.filter_cons, he, sumValues, List.map_cons, List.sum_cons] at ih ⊢
      simp [ih hl]
    · have h0 : e.value = 0 :=
        le_antisymm (not_lt.mp he) (h e (List.mem_cons_self _ _))
      simp [List.filter_cons, he, sumValues, List.map_cons, List.sum_cons,
        h0] at ih ⊢
      exact ih hl

/-- Splitting a filtered sum over a disjunction of disjoint predicates. -/
theorem sumAmounts_filter_or (p q : Transaction → Bool)
    (txs : List Transaction)
    (hdisj : ∀ t ∈ txs, ¬(p t = true ∧ q t = true)) :
    sumAmounts (txs.filter (fun t => p t || q t)) =
      sumAmounts (txs.filter p) + sumAmounts (txs.filter q) := by
  induction txs with
  | nil => simp [sumAmounts]
  | cons t txs ih =>
    have hd := fun x hx => hdisj x (List.mem_cons_of_mem _ hx)
    have iht := ih hd
    cases hp : p t <;> cases hq : q t
    · simpa [List.filter_cons, hp, hq, sumAmounts] using iht
    · simp [List.filter_cons, hp, hq, sumAmounts] at iht ⊢
      rw [iht]; ring
    · simp [List.filter_cons, hp, hq, sumAmounts] at iht ⊢
      rw [iht]; ring
    · exact absurd ⟨hp, hq⟩ (hdisj t (List.mem_cons_self _ _))

/-- Double-counting identity: with distinct category ids, the per-category
totals add up to the total over the transactions referencing some listed
category. -/
theorem sum_per_category (cats : List Category) (txs : List Transaction)
    (hnd : (cats.map (fun c => c.id)).Nodup) :
    ((cats.map (fun c =>
        sumAmounts (txs.filter (fun t => t.category_id == c.id)))).sum) =
      sumAmounts
        (txs.filter (fun t => cats.any (fun c => t.category_id == c.id))) := by
  induction cats with
  | nil => simp [sumAmounts]
  | cons c cs ih =>
    rw [List.map_cons, List.nodup_cons] at hnd
    have hrec := ih hnd.2
    have hsplit := sumAmounts_filter_or
      (fun t => t.category_id == c.id)
      (fun t => cs.any (fun c' => t.category_id == c'.id)) txs ?_
    · rw [List.map_cons, List.sum_cons, hrec]
      rw [show (fun t : Transaction =>
          (c :: cs).any (fun c' => t.category_id == c'.id)) =
          (fun t : Transaction => (t.category_id == c.id) ||
            cs.any (fun c' => t.category_id == c'.id)) from rfl]
      rw [hsplit]
    · rintro t - ⟨h1, h2⟩
      rw [List.any_eq_true] at h2
      obtain ⟨c', hc', hc'id⟩ := h2
      rw [beq_iff_eq] at h1 hc'id
      refine hnd.1 ?_
      rw [← h1, hc'id]
      exact List.mem_map_of_mem (fun x => x.id) hc'

/-- Claim C3 as amended: when the expense categories have distinct ids and
all amounts are non-negative, the summary totals sum to the amounts of
exactly those transactions whose category reference matches some listed
expense category (regardless of the transaction's own type). -/
theorem categorySummary_sum (cats : List Category) (txs : List Transaction)
    (hnd : ((cats.filter (fun c => c.type == TxType.expense)).map
      (fun c => c.id)).Nodup)
    (hpos : ∀ t ∈ txs, 0 ≤ t.amount) :
    sumValues (expenseByCategory cats txs) =
      sumAmounts (txs.filter (fun t =>
        (cats.filter (fun c => c.type == TxType.expense)).any
          (fun c => t.category_id == c.id))) := by
  set ecats := cats.filter (fun c => c.type == TxType.expense) with hecats
  have hperm : sumValues (expenseByCategory cats txs) =
      sumValues ((ecats.map fun c =>
        { name := c.name
          value := sumAmounts (txs.filter (fun t => t.category_id == c.id))
          color := c.color : CatEntry }).filter (fun e => 0 < e.value)) := by
    unfold sumValues expenseByCategory categorySummary
    exact ((List.perm_insertionSort valueGE _).map (fun e => e.value)).sum_eq
  have hnn : ∀ e ∈ (ecats.map fun c =>
      { name := c.name
        value := sumAmounts (txs.filter (fun t => t.category_id == c.id))
        color := c.color : CatEntry }), 0 ≤ e.value := by
    intro e he
    rw [List.mem_map] at he
    obtain ⟨c, _, rfl⟩ := he
    refine List.sum_nonneg ?_
    intro x hx
    rw [List.mem_map] at hx
    obtain ⟨t, ht, rfl⟩ := hx
    exact hpos t (List.mem_of_mem_filter ht)
  rw [hperm, sumValues_filter_pos _ hnn]
  unfold sumValues
  rw [List.map_map]
  have : ((fun e : CatEntry => e.value) ∘ fun c : Category =>
      { name := c.name
        value := sumAmounts (txs.filter (fun t => t.category_id == c.id))
        color := c.color : CatEntry }) =
      fun c : Category =>
        sumAmounts (txs.filter (fun t => t.category_id == c.id)) := rfl
  rw [this]
  exact sum_per_category ecats txs hnd

/-- Witness for claim C3: one expense category with one matching expense of
160; both sides evaluate to 160. -/
theorem categorySummary_sum_witness :
    (([exCatA].filter (fun c => c.type == TxType.expense)).map
      (fun c => c.id)).Nodup ∧
    (∀ t ∈ [exTxA], 0 ≤ t.amount) ∧
    sumValues (expenseByCategory [exCatA] [exTxA]) =
      sumAmounts (([exTxA] : List Transaction).filter (fun t =>
        (([exCatA] : List Category).filter
          (fun c => c.type == TxType.expense)).any
          (fun c => t.category_id == c.id))) := by
  have hpos : ∀ t ∈ [exTxA], 0 ≤ t.amount := by
    intro t ht
    rw [List.mem_singleton] at ht
    subst ht
    norm_num [exTxA]
  exact ⟨by decide, hpos,
    categorySummary_sum [exCatA] [exTxA] (by decide) hpos⟩

/-! ### Monthly summary (claim C2) -/

/-- Reversing the backwards month walk turns `C, C-1, …, C-n+1` into the
forward walk `C-n+1, …, C`. -/
theorem reverse_range_map_sub {α : Type} (f : ℤ → α) (n : ℕ) (C : ℤ) :
    ((List.range n).map (fun i : ℕ => f (C - (i : ℤ)))).reverse =
      (List.range n).map (fun i : ℕ => f (C - (n : ℤ) + 1 + (i : ℤ))) := by
  induction n with
  | zero => simp
  | succ n ih =>
    have hR : (List.range (n + 1)).map
        (fun i : ℕ => f (C - ((n + 1 : ℕ) : ℤ) + 1 + (i : ℤ))) =
        f (C - (n : ℤ)) ::
          (List.range n).map (fun i : ℕ => f (C - (n : ℤ) + 1 + (i : ℤ))) := by
      rw [List.range_succ_eq_map, List.map_cons, List.map_map]
      congr 1
      · congr 1
        push_cast
        ring
      · refine List.map_congr_left ?_
        intro i _
        simp only [Function.comp]
        congr 1
        push_cast
        ring
    have hL : ((List.range (n + 1)).map
        (fun i : ℕ => f (C - (i : ℤ)))).reverse =
        f (C - (n : ℤ)) ::
          ((List.range n).map (fun i : ℕ => f (C - (i : ℤ)))).reverse := by
      rw [List.range_succ, List.map_append, List.reverse_append]
      simp
    rw [hL, ih, hR]

/-- The dashboard's bucket for the month record of total month count `t`
coincides with the spec's bucket: nesting the month filter and the type
filter equals the single conjunctive filter. -/
theorem monthlyBucket_monthInfoOf (t : ℤ) (txs : List Transaction) :
    monthlyBucket (monthInfoOf t) txs = specMonthBucket t txs := by
  unfold monthlyBucket monthInfoOf specMonthBucket
  simp only [List.filter_filter, Bool.and_assoc]

/-- Concrete example transactions from the spec: an expense of 100 on
2024-01-15 and an expense of 50 on 2024-02-10. -/
def exJanTx : Transaction :=
  { id := "j", amount := 100, description := "jan expense",
    date := { year := 2024, month := 1, day := 15 }, type := .expense,
    category_id := "A" }

/-- The February expense of 50 from the spec's example. -/
def exFebTx : Transaction :=
  { id := "f", amount := 50, description := "feb expense",
    date := { year := 2024, month := 2, day := 10 }, type := .expense,
    category_id := "A" }

/-- Claim C2: the monthly summary always yields exactly one bucket per
trailing calendar month, oldest to newest — bucket `i` is the spec's bucket
for month `y*12 + m0 - n + 1 + i`, which also gives zero totals for months
without transactions — and on the spec's two-transaction example with two
trailing months from February 2024 it yields the January bucket with expense
total 100 followed by the February bucket with expense total 50. -/
theorem monthlySummary_spec :
    (∀ (y m0 : ℤ) (n : ℕ) (txs : List Transaction),
      monthlySummary y m0 n txs =
        (List.range n).map
          (fun i : ℕ =>
            specMonthBucket (y * 12 + m0 - (n : ℤ) + 1 + (i : ℤ)) txs) ∧
      (monthlySummary y m0 n txs).length = n) ∧
    monthlySummary 2024 1 2 [exJanTx, exFebTx] =
      [{ name := "Jan", income := 0, expenses := 100, balance := -100 },
        { name := "Feb", income := 0, expenses := 50, balance := -50 }] := by
  have main : ∀ (y m0 : ℤ) (n : ℕ) (txs : List Transaction),
      monthlySummary y m0 n txs =
        (List.range n).map
          (fun i : ℕ =>
            specMonthBucket (y * 12 + m0 - (n : ℤ) + 1 + (i : ℤ)) txs) := by
    intro y m0 n txs
    unfold monthlySummary monthlyStats getLastNMonths
    rw [List.map_reverse, List.map_map]
    have hcomp :
        ((fun mo => monthlyBucket mo txs) ∘
          fun i : ℕ => monthInfoOf (y * 12 + m0 - (i : ℤ))) =
        fun i : ℕ =>
          (fun t : ℤ => monthlyBucket (monthInfoOf t) txs)
            (y * 12 + m0 - (i : ℤ)) := rfl
    rw [hcomp,
      reverse_range_map_sub
        (fun t : ℤ => monthlyBucket (monthInfoOf t) txs) n (y * 12 + m0)]
    refine List.map_congr_left ?_
    intro i _
    exact monthlyBucket_monthInfoOf _ txs
  refine ⟨fun y m0 n txs => ⟨main y m0 n txs, ?_⟩, ?_⟩
  · rw [main y m0 n txs, List.length_map, List.length_range]
  · rw [main 2024 1 2 [exJanTx, exFebTx]]
    norm_num [specMonthBucket, sumAmounts, exJanTx, exFebTx,
      List.range_succ, monthShortName,
      show (TxType.expense == TxType.income) = false from rfl,
      show (TxType.expense == TxType.expense) = true from rfl]

/-! ### CSV content (claim C8) -/

/-- Conclusion of claim C8: both exports download a file consisting of the
header line followed by exactly one joined row per transaction in list order,
each row holding the five columns in order, with `Uncategorized` standing in
when no category matches. -/
def C8Concl (cats : List Category) (txs : List Transaction) : Prop :=
  exportReport cats txs =
    .downloaded (String.intercalate "\n"
      (String.intercalate "," csvHeaders ::
        txs.map (fun t => String.intercalate ","
          [fmtDateISO t.date, typeString t.type,
            categoryName cats t.category_id, t.description,
            toFixed2 t.amount]))) ∧
  (∀ fmt : DateYMD → String,
    exportTransactions fmt cats txs =
      .downloaded (String.intercalate "\n"
        (String.intercalate "," csvHeaders ::
          txs.map (fun t => String.intercalate ","
            [fmt t.date, typeCap t.type, categoryName cats t.category_id,
              t.description, toFixed2 t.amount])))) ∧
  (txs.map (fun t => String.intercalate ","
    [fmtDateISO t.date, typeString t.type, categoryName cats t.category_id,
      t.description, toFixed2 t.amount])).length = txs.length ∧
  (∀ cid : String, cats.find? (fun c => c.id == cid) = none →
    categoryName cats cid = "Uncategorized")

/-- Claim C8: for a non-empty transaction list the exported CSV is one header
row followed by one comma-joined row per transaction in list order, with
columns date, type, category name (``Uncategorized`` fallback), description,
and the amount rendered with two decimals. -/
theorem exportCsv_shape (cats : List Category) (txs : List Transaction)
    (h : txs ≠ []) : C8Concl cats txs := by
  have hlen : txs.length ≠ 0 := fun h0 => h (List.length_eq_zero.mp h0)
  refine ⟨?_, ?_, List.length_map _ _, ?_⟩
  · rw [exportReport, if_neg hlen]
    rfl
  · intro fmt
    rw [exportTransactions, if_neg hlen]
    rfl
  · intro cid hfind
    rw [categoryName, hfind]

/-- Witness for claim C8: the singleton export of the 160 expense. -/
theorem exportCsv_shape_witness :
    ([exTxA] : List Transaction) ≠ [] ∧ C8Concl [exCatA] [exTxA] :=
  ⟨by decide, exportCsv_shape [exCatA] [exTxA] (by decide)⟩

end Finance
